import Mathlib

set_option linter.unusedVariables false

/-! Verification of the stock-scanner loop in src/main.py.

The rule evaluators, their dedup state, the formatters, the market
calendar and the scheduling tick of the source are embedded here as
executable Lean definitions, and the behavioural claims about them are
settled as theorems below the definitions.

Modelling conventions, chosen once for the whole file:
- Python float values become rationals; every comparison in the source
  is exact at the inputs the claims touch, so no rounding is lost.
- A Python dict field read `d.get(k)` on a JSON record becomes an
  `Option` field; `none` stands for an absent key.  A module-level dict
  becomes an association list where a later write shadows earlier ones.
- Alert and digest messages are modelled structurally (which alert for
  which symbol, with which numbers); the literal message text built by
  the f-strings is presentational and is not modelled, except where an
  f-string format specifier can raise, which is modelled by `Except`.
- Network fetches are modelled by an `Env` record holding the decoded
  response each call site would have received. -/

/-- Association-list lookup, modelling a Python dict read `d.get(k)`. -/
def alookup {α : Type} (st : List (String × α)) (k : String) : Option α :=
  (st.find? (fun p => p.1 == k)).map (fun p => p.2)

/-- Dict write `d[k] = v`: the new binding shadows any earlier one. -/
def aset {α : Type} (st : List (String × α)) (k : String) (v : α) : List (String × α) :=
  (k, v) :: st

/-- Python `d.setdefault(k, v)`: insert only when the key is absent. -/
def asetdefault {α : Type} (st : List (String × α)) (k : String) (v : α) :
    List (String × α) :=
  match alookup st k with
  | some _ => st
  | none => (k, v) :: st

/-- Dict read with a false default, `d.get(sym, False)`, as used by every
dedup table in the source. -/
def dget (st : List (String × Bool)) (k : String) : Bool :=
  (alookup st k).getD false

/-- Python truthiness of an optional string: `None` and the empty string
are falsy. -/
def truthyStr (o : Option String) : Bool :=
  match o with
  | some s => s != ""
  | none => false

/-- Python `d.get(k, 0) or 1`, the denominator default used by
check_unusual_activity (src/main.py line 366): an absent or zero value
becomes 1, any other value is kept. -/
def getOrOne (o : Option ℚ) : ℚ :=
  match o with
  | some v => if v = 0 then 1 else v
  | none => 1

/-! Threshold constants from src/main.py lines 24-32.  The first one is
named VOLUME_SPIKE_RATIO in the source; it is renamed here because of
local naming restrictions, with the value kept exactly. -/

def volumeSpikeRatio : ℚ := 2

def PCT_CHANGE_THRESHOLD : ℚ := 5

def LARGE_SALE_VOLUME_DELTA : ℚ := 10000

def UNUSUAL_OPTIONS_VOL_OI_MIN : ℚ := 30

def UNUSUAL_OPTIONS_VOLUME_MIN : ℚ := 3000

def GAP_UP_THRESHOLD : ℚ := 5

def PREMARKET_GAP_THRESHOLD : ℚ := 3

def AFTER_HOURS_MOVE_THRESHOLD : ℚ := 3

/-! Task intervals in seconds, src/main.py lines 16-22. -/

def MAIN_SCAN_INTERVAL_SECONDS : Int := 10

def TOP10_INTERVAL_SECONDS : Int := 300

def UNUSUAL_OPTIONS_INTERVAL_SECONDS : Int := 120

def WATCHLIST_INTERVAL_SECONDS : Int := 30

def MARKET_STATUS_INTERVAL_SECONDS : Int := 1800

def DARK_POOL_INTERVAL_SECONDS : Int := 120

def GAPUP_INTERVAL_SECONDS : Int := 120

/-- One decoded quote or screener record.  Every field the scanner reads
is optional: `none` models an absent key in the JSON object. -/
structure Stock where
  symbol : Option String := none
  regularMarketPrice : Option ℚ := none
  regularMarketChangePercent : Option ℚ := none
  regularMarketVolume : Option ℚ := none
  averageDailyVolume3Month : Option ℚ := none
  regularMarketPreviousClose : Option ℚ := none
  bid : Option ℚ := none
  bidSize : Option ℚ := none
  marketState : Option String := none
  preMarketPrice : Option ℚ := none
  preMarketChangePercent : Option ℚ := none
  postMarketPrice : Option ℚ := none
  postMarketChangePercent : Option ℚ := none
deriving DecidableEq

/-- One row of the unusual-options response.  The two numeric fields hold
the value of `float(str(raw).replace(",", ""))`; `none` covers a row
whose parse raises (the row is skipped by the except branch).  An absent
raw field defaults to the string zero, hence parses to `some 0`. -/
structure Contract where
  baseSymbol : Option String := none
  volumeOpenInterestRatio : Option ℚ := none
  volume : Option ℚ := none
deriving DecidableEq

/-- A message handed to send_telegram_message, modelled structurally:
each constructor records which alert or digest was sent and the data
interpolated into its text. -/
inductive Msg
  | volumeSpike (sym : String) (vol avg : ℚ)
  | bidExact (sym : String) (bid bidSize : ℚ)
  | bidHighValue (sym : String) (bid bidSize : ℚ)
  | unusualActivity (sym : String) (pct vol ratio : ℚ)
  | halt (sym : String)
  | largeSale (sym : String) (delta : ℚ)
  | premarketAfterhours (preSyms postSyms : List String)
  | top10 (rows : List Stock)
  | unusualOptions (included : List Contract)
  | marketStatus (openNow : Bool)
  | darkPool (prints : Nat)
  | gapUp (syms : List String)
deriving DecidableEq

/-- A wall-clock instant as the loop reads it: the calendar fields of the
EST datetime plus an absolute second count used for interval arithmetic.
Weekday follows Python: 0 is Monday, 5 is Saturday, 6 is Sunday. -/
structure Time where
  year : Nat := 2026
  month : Nat := 1
  day : Nat := 1
  weekday : Nat := 0
  hour : Nat := 0
  minute : Nat := 0
  epochSecond : Int := 0
deriving DecidableEq

/-- Mirrors is_trading_day (src/main.py lines 308-311): weekends are the
only closed days; the comment in the source notes that holiday logic
could be added and adds none. -/
def is_trading_day (now : Time) : Bool :=
  if now.weekday ≥ 5 then false else true

/-- Mirrors is_within_trading_window (src/main.py lines 313-319): minutes
since midnight between 360 and 1080 inclusive. -/
def is_within_trading_window (now : Time) : Bool :=
  let startMin := 6 * 60
  let endMin := 18 * 60
  let current := now.hour * 60 + now.minute
  decide (startMin ≤ current ∧ current ≤ endMin)

/-- The market-open predicate the loop and the status task apply, the
conjunction of the two source predicates. -/
def market_open (now : Time) : Bool :=
  is_trading_day now && is_within_trading_window now

/-- Modelled from the spec: the spec describes the holiday set as a
static enumerated list of literal dates.  The source enumerates no
holiday at all (is_trading_day rejects only weekends), so the enumerated
list is empty. -/
def spec_holidays : List (Nat × Nat × Nat) := []

/-- Membership of a date in the spec holiday list. -/
def spec_is_holiday (t : Time) : Bool :=
  spec_holidays.contains (t.year, t.month, t.day)

/-- Definition following the words of the spec market-calendar formula:
weekday in Mon..Fri, not a holiday, and 06:00 to 18:00 inclusive. -/
def spec_isOpen (t : Time) : Bool :=
  decide (t.weekday < 5) && !(spec_is_holiday t)
    && decide (6 * 60 ≤ t.hour * 60 + t.minute ∧ t.hour * 60 + t.minute ≤ 18 * 60)

/-- Mirrors check_volume_spike (src/main.py lines 321-334).  The guard
reproduces the source line `if not vol or not avg3m or avg3m <= 0`:
an absent or zero volume, or an absent, zero or non-positive average,
short-circuits to no alert. -/
def check_volume_spike (sym : String) (stock : Stock) (st : List (String × Bool)) :
    Option Msg × List (String × Bool) :=
  match stock.regularMarketVolume, stock.averageDailyVolume3Month with
  | some vol, some avg3m =>
    if vol = 0 ∨ avg3m = 0 ∨ avg3m ≤ 0 then (none, st)
    else
      let ratio := vol / avg3m
      if ratio ≥ volumeSpikeRatio ∧ ¬ dget st sym then
        (some (.volumeSpike sym vol avg3m), aset st sym true)
      else (none, st)
  | _, _ => (none, st)

/-- Mirrors check_bid_patterns (src/main.py lines 336-359): both bid
patterns are checked in order against their own boolean dedup tables;
a record lacking bid or bidSize yields no alerts. -/
def check_bid_patterns (sym : String) (stock : Stock)
    (stExact stHigh : List (String × Bool)) :
    List Msg × List (String × Bool) × List (String × Bool) :=
  match stock.bid, stock.bidSize with
  | some bid, some bidSize =>
    let r1 :=
      if |bid - 199999| < 0.01 ∧ bidSize = 100 ∧ ¬ dget stExact sym then
        ([Msg.bidExact sym bid bidSize], aset stExact sym true)
      else ([], stExact)
    let r2 :=
      if bid ≥ 2000 ∧ bidSize ≥ 20 ∧ ¬ dget stHigh sym then
        ([Msg.bidHighValue sym bid bidSize], aset stHigh sym true)
      else ([], stHigh)
    (r1.1 ++ r2.1, r1.2, r2.2)
  | _, _ => ([], stExact, stHigh)

/-- Mirrors check_unusual_activity (src/main.py lines 361-375).  Note the
denominator default: a zero or absent average volume is replaced by 1 by
the source expression `stock.get(key, 0) or 1`. -/
def check_unusual_activity (sym : String) (stock : Stock) (st : List (String × Bool)) :
    Option Msg × List (String × Bool) :=
  if dget st sym then (none, st)
  else
    let pct := stock.regularMarketChangePercent.getD 0
    let vol := stock.regularMarketVolume.getD 0
    let avg3m := getOrOne stock.averageDailyVolume3Month
    let ratio := if avg3m > 0 then vol / avg3m else 1
    if pct ≥ 10 ∨ ratio ≥ 3 then
      (some (.unusualActivity sym pct vol ratio), aset st sym true)
    else (none, st)

/-- Mirrors check_halt (src/main.py lines 377-384): a HALTED market state
fires once per symbol and adds the symbol to the watchlist. -/
def check_halt (sym : String) (stock : Stock) (st : List (String × Bool))
    (wl : List (String × String)) :
    Option Msg × List (String × Bool) × List (String × String) :=
  if stock.marketState = some "HALTED" ∧ ¬ dget st sym then
    (some (.halt sym), aset st sym true, asetdefault wl sym "halt")
  else (none, st, wl)

/-- Mirrors update_watchlist_volume (src/main.py lines 386-400): the
rolling last-observed volume is updated whenever a volume is present, and
a large-sale message fires when the delta reaches the threshold. -/
def update_watchlist_volume (sym : String) (q : Stock) (wv : List (String × ℚ)) :
    Option Msg × List (String × ℚ) :=
  match q.regularMarketVolume with
  | none => (none, wv)
  | some vol =>
    let prev := alookup wv sym
    let wv2 := aset wv sym vol
    match prev with
    | none => (none, wv2)
    | some p =>
      if vol - p ≥ LARGE_SALE_VOLUME_DELTA then
        (some (.largeSale sym (vol - p)), wv2)
      else (none, wv2)

/-- Stable insertion of one element into a descending-ordered list: the
element goes after every element whose key is at least its own.  Used to
model Python sorted with a key and reverse, which is stable. -/
def insertDesc {α : Type} (key : α → ℚ) (x : α) : List α → List α
  | [] => [x]
  | y :: ys => if key y ≥ key x then y :: insertDesc key x ys else x :: y :: ys

/-- Stable descending sort by a rational key, modelling
`sorted(l, key=key, reverse=True)`. -/
def sortDesc {α : Type} (key : α → ℚ) (l : List α) : List α :=
  l.foldl (fun acc x => insertDesc key x acc) []

/-- Mirrors format_top_gainers (src/main.py lines 162-184).  The message
body interpolates `price:.2f` for each of the ten sorted records with no
guard; when regularMarketPrice is absent that interpolation raises a
TypeError in Python, modelled as an error value.  Trend and sentiment
lines are presentational and carried implicitly by the record list. -/
def format_top_gainers (gainers : List Stock) : Except Unit Msg :=
  let sortedG :=
    (sortDesc (fun g => g.regularMarketChangePercent.getD 0) gainers).take 10
  if sortedG.all (fun g => g.regularMarketPrice.isSome) then .ok (.top10 sortedG)
  else .error ()

/-- The filter of format_unusual_options (src/main.py lines 188-195):
both numeric fields must have parsed and meet their thresholds. -/
def uoQualifies (c : Contract) : Bool :=
  match c.volumeOpenInterestRatio, c.volume with
  | some volOi, some vol =>
    decide (volOi ≥ UNUSUAL_OPTIONS_VOL_OI_MIN ∧ vol ≥ UNUSUAL_OPTIONS_VOLUME_MIN)
  | _, _ => false

/-- Mirrors format_unusual_options (src/main.py lines 186-223): the
qualifying rows are collected in order and truncated to the first ten;
the result is the list of contracts included in the message (an empty
list corresponds to the no-sweeps text, which is still a message). -/
def format_unusual_options (opts : List Contract) : List Contract :=
  (opts.foldl (fun filtered opt =>
    if uoQualifies opt then filtered ++ [opt] else filtered) []).take 10

/-- Mirrors format_gap_up_alerts (src/main.py lines 225-245): a record
below the gap threshold, or missing price or previous close, is skipped
and the remaining records are still processed; no line means no message. -/
def format_gap_up_alerts (gainers : List Stock) : Option Msg :=
  let included := gainers.filter (fun g =>
    decide (g.regularMarketChangePercent.getD 0 ≥ GAP_UP_THRESHOLD)
      && g.regularMarketPrice.isSome && g.regularMarketPreviousClose.isSome)
  if included = [] then none
  else some (.gapUp (included.map (fun g => g.symbol.getD "N/A")))

/-- Mirrors format_premarket_and_afterhours (src/main.py lines 247-284):
two digests over the same quote list, each kept only when nonempty. -/
def format_premarket_and_afterhours (quotes : List Stock) : Option Msg :=
  let pre := quotes.filter (fun q =>
    match q.preMarketChangePercent with
    | some p => decide (|p| ≥ PREMARKET_GAP_THRESHOLD)
    | none => false)
  let post := quotes.filter (fun q =>
    match q.postMarketChangePercent with
    | some p => decide (|p| ≥ AFTER_HOURS_MOVE_THRESHOLD)
    | none => false)
  if pre = [] ∧ post = [] then none
  else some (.premarketAfterhours (pre.map (fun q => q.symbol.getD "N/A"))
                                  (post.map (fun q => q.symbol.getD "N/A")))

/-- The module-level dedup and watchlist dictionaries of src/main.py
lines 299-305, gathered into one record so they can be threaded
explicitly. -/
structure ScanState where
  last_volume_spike_alert : List (String × Bool) := []
  last_bid_exact_alert : List (String × Bool) := []
  last_bid_highvalue_alert : List (String × Bool) := []
  last_unusual_activity_alert : List (String × Bool) := []
  last_halt_alert : List (String × Bool) := []
  watchlist : List (String × String) := []
  last_watchlist_volume : List (String × ℚ) := []
deriving DecidableEq

/-- One iteration of the per-stock loop of run_main_scanner (src/main.py
lines 411-440): a falsy symbol is skipped; the volume-spike, gated
bid-pattern, unusual-activity and halt evaluators run in order, and the
watchlist is extended when flagged. -/
def process_stock (stock : Stock) (s : ScanState) : List Msg × ScanState :=
  match stock.symbol with
  | none => ([], s)
  | some sym =>
    if sym = "" then ([], s)
    else
      let rVol := check_volume_spike sym stock s.last_volume_spike_alert
      let pct := stock.regularMarketChangePercent.getD 0
      let rBid :=
        if pct ≥ PCT_CHANGE_THRESHOLD then
          check_bid_patterns sym stock s.last_bid_exact_alert s.last_bid_highvalue_alert
        else ([], s.last_bid_exact_alert, s.last_bid_highvalue_alert)
      let rUn := check_unusual_activity sym stock s.last_unusual_activity_alert
      let rHalt := check_halt sym stock s.last_halt_alert s.watchlist
      let wl2 :=
        if (alookup rHalt.2.2 sym).isSome ∨ rVol.1.isSome ∨ rUn.1.isSome then
          asetdefault rHalt.2.2 sym "activity"
        else rHalt.2.2
      (rVol.1.toList ++ rBid.1 ++ rUn.1.toList ++ rHalt.1.toList,
       { s with
          last_volume_spike_alert := rVol.2
          last_bid_exact_alert := rBid.2.1
          last_bid_highvalue_alert := rBid.2.2
          last_unusual_activity_alert := rUn.2
          last_halt_alert := rHalt.2.1
          watchlist := wl2 })

/-- Mirrors run_main_scanner (src/main.py lines 403-448): an empty
screener response ends the task; otherwise every record is processed in
order and the premarket and after-hours digest is appended when the top
twenty symbols are nonempty.  The quotes parameter models the decoded
response of the get_quotes call for those symbols. -/
def run_main_scanner (gainers : List Stock) (mainQuotes : List Stock) (s : ScanState) :
    List Msg × ScanState :=
  if gainers = [] then ([], s)
  else
    let r := gainers.foldl
      (fun acc g =>
        let pr := process_stock g acc.2
        (acc.1 ++ pr.1, pr.2)) (([] : List Msg), s)
    let symbols := (gainers.take 20).filterMap
      (fun g => match g.symbol with
        | some sym => if sym = "" then none else some sym
        | none => none)
    if symbols = [] then r
    else
      match format_premarket_and_afterhours mainQuotes with
      | some m => (r.1 ++ [m], r.2)
      | none => r

/-- Mirrors run_top10_task (src/main.py lines 451-457): an empty screener
response ends the task, otherwise the formatted digest is sent; a
formatting error propagates (uncaught in the source loop). -/
def run_top10_task (gainers : List Stock) : Except Unit (List Msg) :=
  if gainers = [] then .ok []
  else
    match format_top_gainers gainers with
    | .ok m => .ok [m]
    | .error e => .error e

/-- Mirrors run_unusual_options_task (src/main.py lines 460-466): an
empty response ends the task, otherwise one message is sent whose body
lists the contracts selected by the formatter.  The task keeps no state
of its own. -/
def run_unusual_options_task (opts : List Contract) : List Msg :=
  if opts = [] then []
  else [.unusualOptions (format_unusual_options opts)]

/-- The scheduler invoking the unusual-options task once per due cycle:
each element of the input is the decoded response of one cycle.  The task
is stateless, so the cycles are independent. -/
def unusual_option_cycles (batches : List (List Contract)) : List (List Msg) :=
  batches.map run_unusual_options_task

/-- Mirrors run_watchlist_task (src/main.py lines 469-483): nothing
happens while the watchlist is empty or the quote fetch returns nothing;
otherwise each quote with a truthy symbol updates the rolling volume. -/
def run_watchlist_task (watchQuotes : List Stock) (s : ScanState) :
    List Msg × ScanState :=
  if s.watchlist = [] then ([], s)
  else if watchQuotes = [] then ([], s)
  else watchQuotes.foldl
    (fun acc q =>
      match q.symbol with
      | none => acc
      | some sym =>
        if sym = "" then acc
        else
          let r := update_watchlist_volume sym q acc.2.last_watchlist_volume
          (acc.1 ++ r.1.toList, { acc.2 with last_watchlist_volume := r.2 }))
    (([] : List Msg), s)

/-- Mirrors run_market_status_task (src/main.py lines 486-490). -/
def run_market_status_task (now : Time) : List Msg :=
  [.marketStatus (is_trading_day now && is_within_trading_window now)]

/-- Mirrors run_dark_pool_task (src/main.py lines 493-498); the dark-pool
formatter returns no message exactly when the print list is empty, so
only the number of prints is observable here. -/
def run_dark_pool_task (darkPrints : Nat) : List Msg :=
  if darkPrints = 0 then [] else [.darkPool darkPrints]

/-- Mirrors run_gapup_task (src/main.py lines 501-508). -/
def run_gapup_task (gainers : List Stock) : List Msg :=
  if gainers = [] then []
  else
    match format_gap_up_alerts gainers with
    | some m => [m]
    | none => []

/-- The decoded responses each fetch call site of one tick would receive;
the fetches themselves are black-box HTTP calls. -/
structure Env where
  gainers : List Stock := []
  mainQuotes : List Stock := []
  watchQuotes : List Stock := []
  options : List Contract := []
  darkPrints : Nat := 0

/-- The per-task last-run timestamps of src/main.py lines 525-531,
initialised to the far past so every task is due on the first open
tick. -/
structure Sched where
  last_main_scan : Int := -1000000000
  last_top10 : Int := -1000000000
  last_unusual : Int := -1000000000
  last_watchlist : Int := -1000000000
  last_market_status : Int := -1000000000
  last_dark_pool : Int := -1000000000
  last_gapup : Int := -1000000000
deriving DecidableEq

/-- The open-market body of one loop iteration (src/main.py lines
541-574): each of the seven tasks runs when its interval has elapsed, in
the fixed source order, updating its last-run timestamp; the result
carries the new scan state, the new schedule state and the messages sent
in order.  An uncaught formatting exception is the error case. -/
def tick_open (env : Env) (now : Time) (s : ScanState) (sch : Sched) :
    Except Unit (ScanState × Sched × List Msg) :=
  let rMain :=
    if now.epochSecond - sch.last_main_scan ≥ MAIN_SCAN_INTERVAL_SECONDS then
      let r := run_main_scanner env.gainers env.mainQuotes s
      (r.1, r.2, { sch with last_main_scan := now.epochSecond })
    else ([], s, sch)
  let s1 := rMain.2.1
  let sch1 := rMain.2.2
  let top10Due := now.epochSecond - sch1.last_top10 ≥ TOP10_INTERVAL_SECONDS
  match (if top10Due then run_top10_task env.gainers else Except.ok []) with
  | .error e => .error e
  | .ok m2 =>
    let sch2 := if top10Due then { sch1 with last_top10 := now.epochSecond } else sch1
    let rUo :=
      if now.epochSecond - sch2.last_unusual ≥ UNUSUAL_OPTIONS_INTERVAL_SECONDS then
        (run_unusual_options_task env.options,
         { sch2 with last_unusual := now.epochSecond })
      else ([], sch2)
    let rWatch :=
      if now.epochSecond - rUo.2.last_watchlist ≥ WATCHLIST_INTERVAL_SECONDS then
        let r := run_watchlist_task env.watchQuotes s1
        (r.1, r.2, { rUo.2 with last_watchlist := now.epochSecond })
      else ([], s1, rUo.2)
    let rStatus :=
      if now.epochSecond - rWatch.2.2.last_market_status ≥ MARKET_STATUS_INTERVAL_SECONDS then
        (run_market_status_task now,
         { rWatch.2.2 with last_market_status := now.epochSecond })
      else ([], rWatch.2.2)
    let rDark :=
      if now.epochSecond - rStatus.2.last_dark_pool ≥ DARK_POOL_INTERVAL_SECONDS then
        (run_dark_pool_task env.darkPrints,
         { rStatus.2 with last_dark_pool := now.epochSecond })
      else ([], rStatus.2)
    let rGap :=
      if now.epochSecond - rDark.2.last_gapup ≥ GAPUP_INTERVAL_SECONDS then
        (run_gapup_task env.gainers, { rDark.2 with last_gapup := now.epochSecond })
      else ([], rDark.2)
    .ok (rWatch.2.1, rGap.2,
         rMain.1 ++ m2 ++ rUo.1 ++ rWatch.1 ++ rStatus.1 ++ rDark.1 ++ rGap.1)

/-- One iteration of the entrypoint loop (src/main.py lines 533-576).
The result carries the new scan and schedule state, the sleep length in
seconds chosen by this iteration, and the messages sent, in order.  A
market-closed instant takes the early branch (line 537-539): sleep five
seconds and do nothing else; an open instant runs the task body and
sleeps one second (line 576). -/
def tick (env : Env) (now : Time) (s : ScanState) (sch : Sched) :
    Except Unit (ScanState × Sched × Nat × List Msg) :=
  if ¬ (is_trading_day now && is_within_trading_window now) then
    .ok (s, sch, 5, [])
  else
    match tick_open env now s sch with
    | .error e => .error e
    | .ok r => .ok (r.1, r.2.1, 1, r.2.2)

/-- Outcome of one send_telegram_message call. -/
inductive SendResult
  | skipped
  | posted
deriving DecidableEq

/-- Mirrors the credential guard of send_telegram_message (src/main.py
lines 41-44): a missing or empty bot token or chat id makes the call log
a warning and return without posting. -/
def send_telegram_message (botToken chatId : Option String) : SendResult :=
  if ¬ truthyStr botToken ∨ ¬ truthyStr chatId then .skipped else .posted

/-- Mirrors the startup check of the entrypoint (src/main.py lines
511-514): only MBOUM_API_KEY is examined; when it is falsy the process
exits with code 1, otherwise the loop starts.  The messaging credentials
are part of the configuration but are not read at startup. -/
def startup_exit (apiKey botToken chatId : Option String) : Option Nat :=
  if truthyStr apiKey then none else some 1

/-! Auxiliary definitions and concrete inputs used by the theorems. -/

/-- True exactly on the two bid-pattern alert messages. -/
def isBidMsg : Msg → Bool
  | .bidExact _ _ _ => true
  | .bidHighValue _ _ _ => true
  | _ => false

/-- True exactly on the bid-exact alert message for the given symbol. -/
def isBidExactFor (sym : String) : Msg → Bool
  | .bidExact s _ _ => s == sym
  | _ => false

/-- The scheduler running the main scanner once per due cycle: each
element of the input is the screener response of one cycle; the quote
fetch of each cycle returns nothing.  Dedup state is threaded from cycle
to cycle, exactly as the module-level dictionaries persist. -/
def main_scanner_cycles (batches : List (List Stock)) (s : ScanState) :
    List Msg × ScanState :=
  batches.foldl (fun acc b =>
    let r := run_main_scanner b [] acc.2
    (acc.1 ++ r.1, r.2)) (([] : List Msg), s)

/-- A screener record carrying only a symbol and a change percent. -/
def gainOnly (p : ℚ) : Stock :=
  { symbol := some "GGG", regularMarketChangePercent := some p }

/-- A record with a positive volume and a zero average volume. -/
def c1stock : Stock :=
  { symbol := some "XYZ", regularMarketVolume := some 100,
    averageDailyVolume3Month := some 0 }

/-- First observation of the C2 symbol: ratio exactly 2.0. -/
def c2stockA : Stock :=
  { symbol := some "AAA", regularMarketVolume := some 200,
    averageDailyVolume3Month := some 100 }

/-- Later observation of the C2 symbol: ratio 5.0, above the alerted 2.0. -/
def c2stockB : Stock :=
  { symbol := some "AAA", regularMarketVolume := some 500,
    averageDailyVolume3Month := some 100 }

/-- A record matching the exact bid pattern: bid 199999.00, size 100. -/
def bidMatchStock : Stock :=
  { symbol := some "BBB", regularMarketChangePercent := some 6,
    bid := some 199999, bidSize := some 100 }

/-- A record carrying the exact bid pattern but no change percent. -/
def qqqStock : Stock :=
  { symbol := some "QQQ", bid := some 199999, bidSize := some 100 }

/-- A qualifying unusual-options contract: ratio 35, volume 5000. -/
def c5contract : Contract :=
  { baseSymbol := some "NVDA", volumeOpenInterestRatio := some 35,
    volume := some 5000 }

/-- A record whose regularMarketPrice key is absent. -/
def pricelessStock : Stock := { symbol := some "PPP" }

/-- A gap-up record with every needed field present. -/
def gapGoodStock : Stock :=
  { symbol := some "GOOD", regularMarketChangePercent := some 8,
    regularMarketPrice := some 50, regularMarketPreviousClose := some 46 }

/-- A Monday, ten in the morning, at absolute second zero. -/
def mondayTen : Time := { weekday := 0, hour := 10, minute := 0, epochSecond := 0 }

/-- The schedule state after the first open tick at second zero. -/
def schedAfterFirst : Sched :=
  { last_main_scan := 0, last_top10 := 0, last_unusual := 0,
    last_watchlist := 0, last_market_status := 0, last_dark_pool := 0,
    last_gapup := 0 }

/-! Claim C1: division guards in the ratio rules. -/

/-- C1 counterexample: in check_unusual_activity a zero average-volume
denominator does not short-circuit to no signal; the source replaces it
by 1, the ratio becomes the raw volume, and the alert fires. -/
theorem c1_counterexample :
    c1stock.averageDailyVolume3Month = some 0 ∧
    (check_unusual_activity "XYZ" c1stock []).1 =
      some (.unusualActivity "XYZ" 0 100 100) := by
  constructor
  · rfl
  · norm_num [check_unusual_activity, c1stock, dget, alookup, getOrOne]

/-- C1 amended: check_volume_spike short-circuits to no alert on a zero
or absent numerator or denominator and never raises; check_unusual_activity
instead replaces a zero or absent average volume by 1 (so it behaves as if
the average were 1 and can still alert); with volume 0 and average volume 0
neither rule alerts and neither raises. -/
theorem c1_div_guard_amended :
    (∀ (sym : String) (stock : Stock) (st : List (String × Bool)),
      (stock.regularMarketVolume = none ∨ stock.regularMarketVolume = some 0 ∨
       stock.averageDailyVolume3Month = none ∨
       (∃ a, stock.averageDailyVolume3Month = some a ∧ a ≤ 0)) →
      check_volume_spike sym stock st = (none, st))
    ∧ (∀ (sym : String) (stock : Stock) (st : List (String × Bool)),
      (stock.averageDailyVolume3Month = none ∨
       stock.averageDailyVolume3Month = some 0) →
      check_unusual_activity sym stock st =
        check_unusual_activity sym
          { stock with averageDailyVolume3Month := some 1 } st)
    ∧ check_volume_spike "ZZZ"
        { symbol := some "ZZZ", regularMarketVolume := some 0,
          averageDailyVolume3Month := some 0 } [] = (none, [])
    ∧ check_unusual_activity "ZZZ"
        { symbol := some "ZZZ", regularMarketVolume := some 0,
          averageDailyVolume3Month := some 0 } [] = (none, []) := by
  refine ⟨?_, ?_, ?_, ?_⟩
  · intro sym stock st h
    rcases h with h | h | h | ⟨a, ha, hle⟩
    · simp [check_volume_spike, h]
    · cases ha : stock.averageDailyVolume3Month <;>
        simp [check_volume_spike, h, ha]
    · cases hv : stock.regularMarketVolume <;>
        simp [check_volume_spike, h, hv]
    · cases hv : stock.regularMarketVolume <;>
        simp [check_volume_spike, hv, ha, hle]
  · intro sym stock st h
    rcases h with h | h <;> simp [check_unusual_activity, getOrOne, h]
  · norm_num [check_volume_spike]
  · norm_num [check_unusual_activity, dget, alookup, getOrOne]

/-- C1 witness: the amended theorem applied at concrete inputs, an absent
volume for the spike guard and a zero average for the substitution. -/
theorem c1_div_guard_witness :
    check_volume_spike "AAA" { symbol := some "AAA" } [] = (none, []) ∧
    check_unusual_activity "BBB" c1stock [] =
      check_unusual_activity "BBB"
        { c1stock with averageDailyVolume3Month := some 1 } [] :=
  ⟨c1_div_guard_amended.1 "AAA" { symbol := some "AAA" } [] (Or.inl rfl),
   c1_div_guard_amended.2.1 "BBB" c1stock [] (Or.inr rfl)⟩

/-! Claim C2: volume-spike alerting and re-alert policy. -/

/-- C2 counterexample: after a first volume-spike alert at ratio 2.0, a
later observation with the strictly larger ratio 5.0 produces no alert,
because the dedup entry is a boolean that is never consulted as a ratio. -/
theorem c2_counterexample :
    check_volume_spike "AAA" c2stockA [] =
      (some (.volumeSpike "AAA" 200 100), [("AAA", true)]) ∧
    (500 : ℚ) / 100 > (200 : ℚ) / 100 ∧
    check_volume_spike "AAA" c2stockB [("AAA", true)] = (none, [("AAA", true)]) := by
  refine ⟨?_, by norm_num, ?_⟩ <;>
    norm_num [check_volume_spike, c2stockA, c2stockB, dget, alookup, aset,
      volumeSpikeRatio, List.find?]

/-- C2 amended: with both fields present, a nonzero volume and a positive
average, the rule alerts exactly when the ratio reaches the configured 2.0
threshold and the symbol has not alerted before; once the boolean flag is
set the rule returns no alert and leaves the state unchanged, whatever the
later ratio. -/
theorem c2_volume_spike_amended :
    ∀ (sym : String) (stock : Stock) (st : List (String × Bool)) (v a : ℚ),
      stock.regularMarketVolume = some v →
      stock.averageDailyVolume3Month = some a →
      v ≠ 0 → 0 < a →
      (dget st sym = false →
        ((check_volume_spike sym stock st).1.isSome ↔ v / a ≥ volumeSpikeRatio)) ∧
      (dget st sym = true → check_volume_spike sym stock st = (none, st)) := by
  intro sym stock st v a hv ha hv0 ha0
  have hguard : ¬ (v = 0 ∨ a = 0 ∨ a ≤ 0) := by
    push_neg
    exact ⟨hv0, ne_of_gt ha0, ha0⟩
  constructor
  · intro hflag
    by_cases hr : v / a ≥ volumeSpikeRatio
    · simp [check_volume_spike, hv, ha, hguard, hflag, hr]
    · simp [check_volume_spike, hv, ha, hguard, hflag, hr]
  · intro hflag
    simp [check_volume_spike, hv, ha, hguard, hflag]

/-- C2 witness: the amended theorem applied at a ratio-3 first observation
and at an already-alerted state. -/
theorem c2_volume_spike_witness :
    ((check_volume_spike "WWW"
        { symbol := some "WWW", regularMarketVolume := some 300,
          averageDailyVolume3Month := some 100 } []).1.isSome ↔
      (300 : ℚ) / 100 ≥ volumeSpikeRatio) ∧
    check_volume_spike "WWW"
        { symbol := some "WWW", regularMarketVolume := some 300,
          averageDailyVolume3Month := some 100 } [("WWW", true)] =
      (none, [("WWW", true)]) :=
  ⟨(c2_volume_spike_amended "WWW" _ [] 300 100 rfl rfl (by norm_num)
      (by norm_num)).1 (by norm_num [dget, alookup]),
   (c2_volume_spike_amended "WWW" _ [("WWW", true)] 300 100 rfl rfl
      (by norm_num) (by norm_num)).2
     (by norm_num [dget, alookup, List.find?])⟩

/-! Claim C9: startup credential requirements. -/

/-- C9 counterexample: with the data-source API key present and the
messaging bot token absent, startup does not exit; the absence of the bot
token is not a fatal startup error. -/
theorem c9_counterexample :
    startup_exit (some "key") none (some "chat") = none := by
  simp [startup_exit, truthyStr]

/-- C9 amended: only the data-source API key is checked at startup; a
missing or empty key exits with code 1 under every combination of the
messaging credentials, a nonempty key always starts the loop, and a
missing messaging credential merely causes each send to be skipped. -/
theorem c9_startup_amended :
    ∀ (botToken chatId : Option String),
      startup_exit none botToken chatId = some 1 ∧
      startup_exit (some "") botToken chatId = some 1 ∧
      (∀ k : String, k ≠ "" → startup_exit (some k) botToken chatId = none) ∧
      (¬ truthyStr botToken = true ∨ ¬ truthyStr chatId = true →
        send_telegram_message botToken chatId = .skipped) := by
  intro botToken chatId
  refine ⟨by simp [startup_exit, truthyStr], by simp [startup_exit, truthyStr],
    ?_, ?_⟩
  · intro k hk
    simp [startup_exit, truthyStr, hk]
  · intro h
    unfold send_telegram_message
    rw [if_pos h]

/-- C9 witness: the amended theorem applied at concrete credentials. -/
theorem c9_startup_witness :
    startup_exit none none (some "c") = some 1 ∧
    startup_exit (some "k") none (some "c") = none ∧
    send_telegram_message none (some "c") = .skipped :=
  ⟨(c9_startup_amended none (some "c")).1,
   (c9_startup_amended none (some "c")).2.2.1 "k" (by decide),
   (c9_startup_amended none (some "c")).2.2.2 (Or.inl (by decide))⟩

/-! Claim C7: the market-open predicate. -/

/-- C7: the loop market-open predicate equals the spec formula, with the
holiday list as enumerated by this variant (empty: the source rejects
only weekends); a Saturday is closed regardless of time of day, 06:00 and
18:00 exactly are open, and 05:59 and 18:01 are closed. -/
theorem c7_market_calendar :
    (∀ t : Time, market_open t = spec_isOpen t) ∧
    (∀ t : Time, t.weekday = 5 → market_open t = false) ∧
    market_open { weekday := 0, hour := 6, minute := 0 } = true ∧
    market_open { weekday := 0, hour := 18, minute := 0 } = true ∧
    market_open { weekday := 0, hour := 5, minute := 59 } = false ∧
    market_open { weekday := 0, hour := 18, minute := 1 } = false := by
  refine ⟨?_, ?_, by decide, by decide, by decide, by decide⟩
  · intro t
    by_cases h : t.weekday ≥ 5
    · simp [market_open, is_trading_day, spec_isOpen, spec_is_holiday,
        spec_holidays, h, Nat.not_lt.mpr h]
    · simp [market_open, is_trading_day, is_within_trading_window, spec_isOpen,
        spec_is_holiday, spec_holidays, h, Nat.lt_of_not_le h]
  · intro t h
    simp [market_open, is_trading_day, h]

/-- C7 witness: the calendar theorem applied at a concrete Saturday noon
and at a concrete Tuesday morning. -/
theorem c7_market_calendar_witness :
    market_open { weekday := 5, hour := 12, minute := 0 } = false ∧
    market_open { weekday := 1, hour := 9, minute := 30 } =
      spec_isOpen { weekday := 1, hour := 9, minute := 30 } :=
  ⟨c7_market_calendar.2.1 { weekday := 5, hour := 12, minute := 0 } rfl,
   c7_market_calendar.1 { weekday := 1, hour := 9, minute := 30 }⟩

/-! Claim C5: the unusual-options rule. -/

/-- C5 counterexample: the same qualifying contract is included in the
alert of two successive scan cycles; the rule does not alert at most once
ever per contract symbol. -/
theorem c5_counterexample :
    uoQualifies c5contract = true ∧
    unusual_option_cycles [[c5contract], [c5contract]] =
      [[.unusualOptions [c5contract]], [.unusualOptions [c5contract]]] := by
  constructor
  · norm_num [uoQualifies, c5contract, UNUSUAL_OPTIONS_VOL_OI_MIN,
      UNUSUAL_OPTIONS_VOLUME_MIN]
  · norm_num [unusual_option_cycles, run_unusual_options_task,
      format_unusual_options, uoQualifies, c5contract,
      UNUSUAL_OPTIONS_VOL_OI_MIN, UNUSUAL_OPTIONS_VOLUME_MIN, List.foldl]

/-- Folding the unusual-options filter loop equals filtering. -/
theorem uo_fold_eq_filter (l : List Contract) (acc : List Contract) :
    l.foldl (fun filtered opt =>
      if uoQualifies opt then filtered ++ [opt] else filtered) acc =
    acc ++ l.filter uoQualifies := by
  induction l generalizing acc with
  | nil => simp
  | cons x xs ih =>
    by_cases h : uoQualifies x <;> simp [List.foldl, List.filter, h, ih]

/-- C5 amended: a contract is included in the alert exactly when both
numeric fields parsed and meet the thresholds and it is among the first
ten such rows of the batch; the task keeps no per-contract state, so a
qualifying contract is re-included in every cycle whose response lists
it. -/
theorem c5_unusual_options_amended :
    (∀ opts : List Contract,
      format_unusual_options opts = (opts.filter uoQualifies).take 10) ∧
    (∀ opts : List Contract, opts ≠ [] →
      run_unusual_options_task opts =
        [.unusualOptions ((opts.filter uoQualifies).take 10)]) ∧
    (∀ c : Contract, uoQualifies c = true →
      run_unusual_options_task [c] = [.unusualOptions [c]]) := by
  have hfmt : ∀ opts : List Contract,
      format_unusual_options opts = (opts.filter uoQualifies).take 10 := by
    intro opts
    unfold format_unusual_options
    rw [uo_fold_eq_filter]
    simp
  refine ⟨hfmt, ?_, ?_⟩
  · intro opts h
    simp [run_unusual_options_task, h, hfmt]
  · intro c h
    simp [run_unusual_options_task, hfmt, List.filter, h]

/-- C5 witness: the amended theorem applied at a one-contract batch. -/
theorem c5_unusual_options_witness :
    run_unusual_options_task [c5contract] =
      [.unusualOptions (([c5contract].filter uoQualifies).take 10)] ∧
    run_unusual_options_task [c5contract] = [.unusualOptions [c5contract]] :=
  ⟨c5_unusual_options_amended.2.1 [c5contract] (by simp),
   c5_unusual_options_amended.2.2 c5contract (by
     norm_num [uoQualifies, c5contract, UNUSUAL_OPTIONS_VOL_OI_MIN,
       UNUSUAL_OPTIONS_VOLUME_MIN])⟩

/-! Claim C3: the gain-threshold rule. -/

/-- The volume-spike rule ignores a percent-only record. -/
theorem cvs_gain (p : ℚ) (st : List (String × Bool)) :
    check_volume_spike "GGG" (gainOnly p) st = (none, st) := by
  simp [check_volume_spike, gainOnly]

/-- The bid-pattern rules ignore a percent-only record. -/
theorem cbp_gain (p : ℚ) (stE stH : List (String × Bool)) :
    check_bid_patterns "GGG" (gainOnly p) stE stH = ([], stE, stH) := by
  simp [check_bid_patterns, gainOnly]

/-- The unusual-activity rule ignores a percent-only record below 10. -/
theorem cua_gain (p : ℚ) (st : List (String × Bool)) (hp : p < 10) :
    check_unusual_activity "GGG" (gainOnly p) st = (none, st) := by
  by_cases h : dget st "GGG"
  · simp [check_unusual_activity, h]
  · norm_num [check_unusual_activity, gainOnly, getOrOne, h, not_le.mpr hp]

/-- The halt rule ignores a percent-only record. -/
theorem chalt_gain (p : ℚ) (st : List (String × Bool))
    (wl : List (String × String)) :
    check_halt "GGG" (gainOnly p) st wl = (none, st, wl) := by
  simp [check_halt, gainOnly]

/-- Processing a percent-only record below 10.0 emits nothing and
changes no state. -/
theorem process_gain (p : ℚ) (s : ScanState) (hp : p < 10) :
    process_stock (gainOnly p) s = ([], s) := by
  have hsym : (gainOnly p).symbol = some "GGG" := rfl
  have hpct : (gainOnly p).regularMarketChangePercent.getD 0 = p := rfl
  unfold process_stock
  rw [hsym]
  simp only [cvs_gain, cbp_gain, cua_gain p _ hp, chalt_gain, hpct, ite_self]
  rcases hw : alookup s.watchlist "GGG" with _ | w
  · simp [hw]
  · simp [hw, asetdefault]

/-- A percent-only record below 10.0 leaves the whole main scanner
inert: no message, no state change. -/
theorem gain_only_scan :
    ∀ (p : ℚ) (s : ScanState), p < 10 →
      run_main_scanner [gainOnly p] [] s = ([], s) := by
  intro p s hp
  have hsym : (gainOnly p).symbol = some "GGG" := rfl
  simp [run_main_scanner, List.foldl, process_gain p s hp, hsym,
    format_premarket_and_afterhours, List.filterMap]

/-- C3 counterexample: a symbol observed with changePercent 5.0, then 5.0
again, then 7.5 across successive main-scanner cycles fires zero alerts,
not two: this variant has no standalone gain-threshold alert. -/
theorem c3_counterexample :
    main_scanner_cycles [[gainOnly 5], [gainOnly 5], [gainOnly 7.5]] {} =
      ([], {}) := by
  simp [main_scanner_cycles, List.foldl, gain_only_scan 5 {} (by norm_num),
    gain_only_scan (7.5 : ℚ) {} (by norm_num)]

/-- C3 amended: the main scanner has no gain-threshold alert; a change
percent of at least 5.0 only gates the bid-pattern checks.  A record
carrying only a symbol and a change percent below 10.0 produces no
message and leaves every dedup table unchanged, from any state. -/
theorem c3_gain_gate_amended :
    ∀ (p : ℚ) (s : ScanState), p < 10 →
      run_main_scanner [gainOnly p] [] s = ([], s) :=
  fun p s hp => gain_only_scan p s hp

/-- C3 witness: the amended theorem applied at percent 5.0 from the fresh
state. -/
theorem c3_gain_gate_witness :
    run_main_scanner [gainOnly 5] [] {} = ([], {}) :=
  c3_gain_gate_amended 5 {} (by norm_num)

/-! Claim C8: per-record recovery from absent fields. -/

/-- C8 counterexample: a batch whose only record lacks regularMarketPrice
makes format_top_gainers raise (the price interpolation has no guard),
aborting the batch instead of treating the field as absent. -/
theorem c8_counterexample :
    format_top_gainers [pricelessStock] = .error () := by
  norm_num [format_top_gainers, sortDesc, insertDesc, pricelessStock,
    List.foldl]

/-- C8 amended: format_gap_up_alerts recovers per-record, skipping a
record with an absent price and processing the remaining records
unchanged; format_top_gainers does not: it succeeds exactly when every
record of the sorted top ten carries a price, and errors (a raised
TypeError) as soon as one of them lacks it. -/
theorem c8_field_absent_amended :
    (∀ (pre post : List Stock) (g : Stock),
      g.regularMarketPrice = none →
      format_gap_up_alerts (pre ++ g :: post) = format_gap_up_alerts (pre ++ post)) ∧
    (∀ gainers : List Stock,
      ((sortDesc (fun g => g.regularMarketChangePercent.getD 0) gainers).take 10).all
          (fun g => g.regularMarketPrice.isSome) = false →
      format_top_gainers gainers = .error ()) ∧
    (∀ gainers : List Stock,
      ((sortDesc (fun g => g.regularMarketChangePercent.getD 0) gainers).take 10).all
          (fun g => g.regularMarketPrice.isSome) = true →
      format_top_gainers gainers =
        .ok (.top10 ((sortDesc (fun g => g.regularMarketChangePercent.getD 0)
          gainers).take 10))) := by
  refine ⟨?_, ?_, ?_⟩
  · intro pre post g hg
    simp [format_gap_up_alerts, List.filter_append, List.filter_cons, hg]
  · intro gainers h
    simp [format_top_gainers, h]
  · intro gainers h
    simp [format_top_gainers, h]

/-- C8 witness: the amended theorem applied at a two-record batch with
one bad record, and at the one-record batches. -/
theorem c8_field_absent_witness :
    format_gap_up_alerts [pricelessStock, gapGoodStock] =
      format_gap_up_alerts [gapGoodStock] ∧
    format_top_gainers [pricelessStock] = .error () ∧
    format_top_gainers [gapGoodStock] =
      .ok (.top10 ((sortDesc (fun g => g.regularMarketChangePercent.getD 0)
        [gapGoodStock]).take 10)) :=
  ⟨c8_field_absent_amended.1 [] [gapGoodStock] pricelessStock rfl,
   c8_field_absent_amended.2.1 [pricelessStock] (by
     norm_num [sortDesc, insertDesc, pricelessStock, List.foldl]),
   c8_field_absent_amended.2.2 [gapGoodStock] (by
     norm_num [sortDesc, insertDesc, gapGoodStock, List.foldl])⟩

/-! Claim C10: the percent gate in front of the bid-pattern rules. -/

/-- Any message the volume-spike rule emits is a volume-spike alert. -/
theorem cvs_shape (sym : String) (stock : Stock) (st : List (String × Bool)) :
    ∀ m ∈ (check_volume_spike sym stock st).1, isBidMsg m = false := by
  intro m hm
  unfold check_volume_spike at hm
  split at hm
  · dsimp only at hm
    split at hm
    · simp at hm
    · split at hm
      · simp at hm
        subst hm
        rfl
      · simp at hm
  · simp at hm

/-- Any message the unusual-activity rule emits is an unusual-activity
alert. -/
theorem cua_shape (sym : String) (stock : Stock) (st : List (String × Bool)) :
    ∀ m ∈ (check_unusual_activity sym stock st).1, isBidMsg m = false := by
  intro m hm
  unfold check_unusual_activity at hm
  split at hm
  · simp at hm
  · dsimp only at hm
    split at hm
    · split at hm
      · simp at hm
        subst hm
        rfl
      · simp at hm
    · split at hm
      · simp at hm
        subst hm
        rfl
      · simp at hm

/-- Any message the halt rule emits is a halt alert. -/
theorem chalt_shape (sym : String) (stock : Stock) (st : List (String × Bool))
    (wl : List (String × String)) :
    ∀ m ∈ (check_halt sym stock st wl).1, isBidMsg m = false := by
  intro m hm
  unfold check_halt at hm
  split at hm
  · simp at hm
    subst hm
    rfl
  · simp at hm

/-- C10: a record whose change percent is absent or below 5.0 never
reaches the bid-pattern rules: processing it leaves both bid dedup tables
unchanged and emits no bid alert, whatever its bid and bidSize hold. -/
theorem c10_bid_gate :
    ∀ (stock : Stock) (s : ScanState),
      stock.regularMarketChangePercent.getD 0 < PCT_CHANGE_THRESHOLD →
      (process_stock stock s).2.last_bid_exact_alert = s.last_bid_exact_alert ∧
      (process_stock stock s).2.last_bid_highvalue_alert =
        s.last_bid_highvalue_alert ∧
      ∀ m ∈ (process_stock stock s).1, isBidMsg m = false := by
  intro stock s hp
  have hgate : ¬ (stock.regularMarketChangePercent.getD 0 ≥ PCT_CHANGE_THRESHOLD) :=
    not_le.mpr hp
  rcases hsym : stock.symbol with _ | sym
  · simp [process_stock, hsym]
  · by_cases he : sym = ""
    · simp [process_stock, hsym, he]
    · unfold process_stock
      rw [hsym]
      dsimp only
      rw [if_neg he, if_neg hgate]
      refine ⟨rfl, rfl, ?_⟩
      intro m hm
      dsimp only at hm
      rcases List.mem_append.mp hm with hm1 | hmH
      · rcases List.mem_append.mp hm1 with hm2 | hmU
        · rcases List.mem_append.mp hm2 with hmV | hmB
          · exact cvs_shape sym stock s.last_volume_spike_alert m
              (Option.mem_toList.mp hmV)
          · simp at hmB
        · exact cua_shape sym stock s.last_unusual_activity_alert m
            (Option.mem_toList.mp hmU)
      · exact chalt_shape sym stock s.last_halt_alert s.watchlist m
          (Option.mem_toList.mp hmH)

/-- C10 witness: the gate theorem applied at a record carrying the exact
bid pattern but no change percent, from the fresh state. -/
theorem c10_bid_gate_witness :
    (process_stock qqqStock {}).2.last_bid_exact_alert = [] ∧
    (process_stock qqqStock {}).2.last_bid_highvalue_alert = [] ∧
    ∀ m ∈ (process_stock qqqStock {}).1, isBidMsg m = false :=
  c10_bid_gate qqqStock {} (by norm_num [qqqStock, PCT_CHANGE_THRESHOLD])

/-! Claim C4: the bid-exact rule fires at most once ever. -/

/-- Reading back the key just written returns true. -/
theorem dget_aset_self (st : List (String × Bool)) (k : String) :
    dget (aset st k true) k = true := by
  simp [dget, alookup, aset, List.find?]

/-- Writing true for any key preserves a true reading of any key. -/
theorem dget_aset_true_mono (st : List (String × Bool)) (k k2 : String)
    (h : dget st k2 = true) : dget (aset st k true) k2 = true := by
  by_cases hk : k = k2
  · subst hk
    exact dget_aset_self st k
  · have hbeq : (k == k2) = false := by simp [hk]
    simpa [dget, alookup, aset, List.find?, hbeq] using h

/-- The bid-pattern evaluator never unsets an exact-pattern flag. -/
theorem cbp_exact_mono (sym0 sym : String) (stock : Stock)
    (stE stH : List (String × Bool)) (h : dget stE sym0 = true) :
    dget (check_bid_patterns sym stock stE stH).2.1 sym0 = true := by
  unfold check_bid_patterns
  rcases hb : stock.bid with _ | b <;> rcases hs : stock.bidSize with _ | sz <;>
    simp only [hb, hs]
  · exact h
  · exact h
  · exact h
  · by_cases hc : |b - 199999| < (0.01 : ℚ) ∧ sz = 100 ∧ ¬ dget stE sym = true
    · rw [if_pos hc]
      exact dget_aset_true_mono stE sym sym0 h
    · rw [if_neg hc]
      exact h

/-- Processing any record never unsets an exact-pattern flag. -/
theorem process_exact_mono (sym0 : String) (stock : Stock) (s : ScanState)
    (h : dget s.last_bid_exact_alert sym0 = true) :
    dget (process_stock stock s).2.last_bid_exact_alert sym0 = true := by
  unfold process_stock
  rcases hsym : stock.symbol with _ | sym
  · exact h
  · dsimp only
    by_cases he : sym = ""
    · rw [if_pos he]
      exact h
    · rw [if_neg he]
      by_cases hg : stock.regularMarketChangePercent.getD 0 ≥ PCT_CHANGE_THRESHOLD
      · rw [if_pos hg]
        exact cbp_exact_mono sym0 sym stock s.last_bid_exact_alert
          s.last_bid_highvalue_alert h
      · rw [if_neg hg]
        exact h

/-- The scanner fold never unsets an exact-pattern flag. -/
theorem fold_exact_mono (sym0 : String) (gainers : List Stock)
    (acc : List Msg × ScanState)
    (h : dget acc.2.last_bid_exact_alert sym0 = true) :
    dget ((gainers.foldl
      (fun acc g =>
        let pr := process_stock g acc.2
        (acc.1 ++ pr.1, pr.2)) acc).2.last_bid_exact_alert) sym0 = true := by
  induction gainers generalizing acc with
  | nil => simpa using h
  | cons x xs ih =>
    simp only [List.foldl]
    exact ih _ (process_exact_mono sym0 x acc.2 h)

/-- One whole main-scanner pass never unsets an exact-pattern flag. -/
theorem scanner_exact_mono (sym0 : String) (gainers mainQuotes : List Stock)
    (s : ScanState) (h : dget s.last_bid_exact_alert sym0 = true) :
    dget (run_main_scanner gainers mainQuotes s).2.last_bid_exact_alert sym0 =
      true := by
  unfold run_main_scanner
  split
  · exact h
  · dsimp only
    split
    · exact fold_exact_mono sym0 gainers _ h
    · split
      · exact fold_exact_mono sym0 gainers _ h
      · exact fold_exact_mono sym0 gainers _ h

/-- C4: on its first evaluation for a symbol (flag unset), an observation
with bid within 0.01 of 199999.00 and bidSize 100 emits the bid-exact
alert and sets the boolean flag; once the flag is set no observation ever
emits the bid-exact alert again and the evaluator returns the flag table
unchanged; and no main-scanner pass ever resets a set flag. -/
theorem c4_bid_exact_once :
    (∀ (sym : String) (stock : Stock) (stE stH : List (String × Bool)) (b sz : ℚ),
      stock.bid = some b → stock.bidSize = some sz →
      |b - 199999| < 0.01 → sz = 100 → dget stE sym = false →
      Msg.bidExact sym b sz ∈ (check_bid_patterns sym stock stE stH).1 ∧
      dget (check_bid_patterns sym stock stE stH).2.1 sym = true) ∧
    (∀ (sym : String) (stock : Stock) (stE stH : List (String × Bool)),
      dget stE sym = true →
      (∀ m ∈ (check_bid_patterns sym stock stE stH).1,
        isBidExactFor sym m = false) ∧
      (check_bid_patterns sym stock stE stH).2.1 = stE) ∧
    (∀ (sym : String) (gainers mainQuotes : List Stock) (s : ScanState),
      dget s.last_bid_exact_alert sym = true →
      dget (run_main_scanner gainers mainQuotes s).2.last_bid_exact_alert sym =
        true) := by
  refine ⟨?_, ?_, ?_⟩
  · intro sym stock stE stH b sz hb hsz hnear h100 hflag
    unfold check_bid_patterns
    rw [hb, hsz]
    dsimp only
    rw [if_pos ⟨hnear, h100, by simp [hflag]⟩]
    constructor
    · exact List.mem_append_left _ (List.mem_singleton_self _)
    · exact dget_aset_self stE sym
  · intro sym stock stE stH hflag
    unfold check_bid_patterns
    rcases hb : stock.bid with _ | b <;> rcases hs : stock.bidSize with _ | sz <;>
      simp only [hb, hs]
    · exact ⟨by simp, trivial⟩
    · exact ⟨by simp, trivial⟩
    · exact ⟨by simp, trivial⟩
    · rw [if_neg (by simp [hflag] :
        ¬ (|b - 199999| < (0.01 : ℚ) ∧ sz = 100 ∧ ¬ dget stE sym = true))]
      refine ⟨?_, rfl⟩
      intro m hm
      rw [List.nil_append] at hm
      split at hm
      · simp at hm
        subst hm
        rfl
      · simp at hm
  · intro sym gainers mainQuotes s h
    exact scanner_exact_mono sym gainers mainQuotes s h

/-- C4 witness: the theorem applied at the concrete matching record, at
an already-set flag, and at a one-record scanner pass over a set flag. -/
theorem c4_bid_exact_once_witness :
    (Msg.bidExact "BBB" 199999 100 ∈
      (check_bid_patterns "BBB" bidMatchStock [] []).1 ∧
     dget (check_bid_patterns "BBB" bidMatchStock [] []).2.1 "BBB" = true) ∧
    (∀ m ∈ (check_bid_patterns "BBB" bidMatchStock [("BBB", true)] []).1,
      isBidExactFor "BBB" m = false) ∧
    dget (run_main_scanner [bidMatchStock] []
      { last_bid_exact_alert := [("BBB", true)] }).2.last_bid_exact_alert
      "BBB" = true :=
  ⟨c4_bid_exact_once.1 "BBB" bidMatchStock [] [] 199999 100 rfl rfl
      (by norm_num) rfl (by simp [dget, alookup]),
   (c4_bid_exact_once.2.1 "BBB" bidMatchStock [("BBB", true)] []
      (by simp [dget, alookup, List.find?])).1,
   c4_bid_exact_once.2.2 "BBB" [bidMatchStock] []
      { last_bid_exact_alert := [("BBB", true)] }
      (by simp [dget, alookup, List.find?])⟩

/-! Claim C6: market-closed ticks. -/

/-- C6: on a market-closed instant the loop iteration changes no dedup or
schedule state, sends no message (so no normalizer, fetcher or rule
evaluator output is observable) and sleeps five seconds; on an open
instant every successful iteration sleeps the normal one second. -/
theorem c6_closed_tick :
    ∀ (env : Env) (now : Time) (s : ScanState) (sch : Sched),
      (¬ (is_trading_day now = true ∧ is_within_trading_window now = true) →
        tick env now s sch = .ok (s, sch, 5, [])) ∧
      (∀ (s2 : ScanState) (sch2 : Sched) (slp : Nat) (msgs : List Msg),
        is_trading_day now = true → is_within_trading_window now = true →
        tick env now s sch = .ok (s2, sch2, slp, msgs) → slp = 1) := by
  intro env now s sch
  constructor
  · intro h
    have hb : ¬ ((is_trading_day now && is_within_trading_window now) = true) := by
      rw [Bool.and_eq_true]
      exact h
    unfold tick
    rw [if_pos hb]
  · intro s2 sch2 slp msgs hd hw htick
    have hb : (is_trading_day now && is_within_trading_window now) = true := by
      rw [Bool.and_eq_true]
      exact ⟨hd, hw⟩
    unfold tick at htick
    rw [if_neg (not_not_intro hb)] at htick
    rcases hto : tick_open env now s sch with e | r
    · rw [hto] at htick
      exact absurd htick (by simp)
    · rw [hto] at htick
      simp only [Except.ok.injEq, Prod.mk.injEq] at htick
      exact htick.2.2.1.symm

/-- A first open tick over an all-empty environment runs the due tasks
and sends only the market-status message, then sleeps one second. -/
theorem tick_open_concrete :
    tick {} mondayTen {} {} = .ok ({}, schedAfterFirst, 1, [.marketStatus true]) := by
  norm_num [tick, tick_open, is_trading_day, is_within_trading_window, mondayTen,
    run_main_scanner, run_top10_task, run_unusual_options_task,
    run_watchlist_task, run_market_status_task, run_dark_pool_task,
    run_gapup_task, schedAfterFirst, MAIN_SCAN_INTERVAL_SECONDS,
    TOP10_INTERVAL_SECONDS, UNUSUAL_OPTIONS_INTERVAL_SECONDS,
    WATCHLIST_INTERVAL_SECONDS, MARKET_STATUS_INTERVAL_SECONDS,
    DARK_POOL_INTERVAL_SECONDS, GAPUP_INTERVAL_SECONDS]

/-- C6 witness: the tick theorem applied at a concrete Saturday noon and
at a concrete open Monday-morning tick. -/
theorem c6_closed_tick_witness :
    tick {} { weekday := 5, hour := 12 } {} {} = .ok ({}, {}, 5, []) ∧
    (1 : Nat) = 1 :=
  ⟨(c6_closed_tick {} { weekday := 5, hour := 12 } {} {}).1 (by decide),
   (c6_closed_tick {} mondayTen {} {}).2 {} schedAfterFirst 1
     [.marketStatus true] (by decide) (by decide) tick_open_concrete⟩
